import Mathlib

/-
  Verification of the Plaid integration core of the mintable repository
  (src/integrations/plaid/plaidIntegration.ts), as a shallow embedding.

  Conventions of the embedding:
  * JavaScript values that may be `null`/`undefined` are modelled as `Option`.
  * Numbers that the source only copies (amounts, balances, coordinates) are
    modelled as `Int`; the source performs no arithmetic on them.
  * Promise rejection / thrown exceptions are modelled with `Except`.
  * The unbounded `while` loop of the paginated fetcher is modelled with an
    explicit fuel parameter; running out of fuel yields `none`
    (the source has no iteration bound and can loop forever on an
    inconsistent provider).
-/

namespace Mintable

/-- Identifier of the integration; the file under verification only ever uses
the Plaid integration id (`IntegrationId.Plaid` in the source). -/
inductive IntegrationId where
  | plaid
deriving DecidableEq, Repr

/-- Result of `parseISO(transaction.date)` (date-fns). The source only stores
the parsed value and never computes with it, so the parse is modelled as an
injective wrapper around the input string. -/
structure ParsedDate where
  iso : String
deriving DecidableEq, Repr

/-- Model of `parseISO` from date-fns: carries the parsed ISO date string. -/
def parseISO (s : String) : ParsedDate := ⟨s⟩

/-- Errors with which a provider request can reject
(network or authentication failures of the Plaid client). -/
inductive PlaidError where
  | transportError
  | authError
deriving DecidableEq, Repr

/-- Shape of one response of `client.getTransactions`: the raw account list,
one page of raw transactions, and the provider-reported total
(`total_transactions`). -/
structure TransactionsResponse (α τ : Type) where
  accounts : List α
  transactions : List τ
  total_transactions : Nat
deriving DecidableEq, Repr

/-- Loop of `fetchPagedTransactions` (plaidIntegration.ts lines 132-136):
while fewer transactions are accumulated than the total reported by the FIRST
response, advance the offset by the fixed page size 500
(`options.offset += options.count`), request the next page, and append its
transactions to the accumulator.  `getTransactions` is the provider call
(indexed by offset; token and date range are fixed for one call), `first` is
the initial response object whose `total_transactions` drives the loop,
`acc` the accumulated transactions, and `reqs` the offsets requested so far.
Fuel bounds the number of further requests; the source has no such bound. -/
def fetchPagedGo {α τ : Type} (getTransactions : Nat → Except PlaidError (TransactionsResponse α τ))
    (first : TransactionsResponse α τ) :
    Nat → Nat → List τ → List Nat → Option (Except PlaidError (TransactionsResponse α τ × List Nat))
  | fuel, offset, acc, reqs =>
    if acc.length < first.total_transactions then
      match fuel with
      | 0 => none
      | f + 1 =>
        match getTransactions (offset + 500) with
        | Except.error e => some (Except.error e)
        | Except.ok next_page =>
          fetchPagedGo getTransactions first f (offset + 500)
            (acc ++ next_page.transactions) (reqs ++ [offset + 500])
    else
      some (Except.ok ({ first with transactions := acc }, reqs))

/-- `fetchPagedTransactions` (plaidIntegration.ts lines 118-143): issue the
initial request with `offset = 0, count = 500`, then loop.  The result, when
the loop terminates within `fuel` further requests, is the first response with
its `transactions` field replaced by the accumulated list, paired with the
list of offsets that were requested. -/
def fetchPagedTransactions {α τ : Type}
    (getTransactions : Nat → Except PlaidError (TransactionsResponse α τ)) (fuel : Nat) :
    Option (Except PlaidError (TransactionsResponse α τ × List Nat)) :=
  match getTransactions 0 with
  | Except.error e => some (Except.error e)
  | Except.ok accounts => fetchPagedGo getTransactions accounts fuel 0 accounts.transactions [0]

/-- Number of requests the fetcher issues against a consistent provider that
reports `total` transactions: one initial request always happens, then further
pages until `total` records are accumulated. -/
def numRequests (total : Nat) : Nat := max 1 ((total + 499) / 500)

/-- Concatenation, in arrival order, of the pages at offsets 0, 500, ...,
500 * (n - 1). -/
def pagesConcat {τ : Type} (page : Nat → List τ) : Nat → List τ
  | 0 => []
  | n + 1 => pagesConcat page n ++ page (500 * n)

/-- The offsets 0, 500, ..., 500 * (n - 1) in request order. -/
def pageOffsets : Nat → List Nat
  | 0 => []
  | n + 1 => pageOffsets n ++ [500 * n]

/-- Model of the JavaScript expression `a || b` for `a : string | null`:
both `null`/`undefined` (here `none`) and the empty string are falsy, so the
right operand is used for them. Used for the currency fallbacks
(plaidIntegration.ts lines 162 and 170). -/
def jsOr : Option String → Option String → Option String
  | some s, b => if s = "" then b else some s
  | none, b => b

/-- Model of `a || b` where the fallback `b` is a plain string, as in
`account.subtype || account.type` (plaidIntegration.ts line 158). -/
def jsOrStr : Option String → String → String
  | some s, b => if s = "" then b else s
  | none, b => b

/-- Raw `balances` object of a Plaid account. All subfields can be null. -/
structure RawBalances where
  current : Option Int
  available : Option Int
  limit : Option Int
  iso_currency_code : Option String
  unofficial_currency_code : Option String
deriving DecidableEq, Repr

/-- Raw account record as served by the provider. -/
structure RawAccount where
  account_id : String
  mask : Option String
  name : String
  official_name : Option String
  subtype : Option String
  type : String
  balances : RawBalances
deriving DecidableEq, Repr

/-- Raw `location` object of a Plaid transaction. All subfields can be null. -/
structure RawLocation where
  address : Option String
  city : Option String
  region : Option String
  postal_code : Option String
  country : Option String
  lat : Option Int
  lon : Option Int
deriving DecidableEq, Repr

/-- Raw transaction record as served by the provider.  `category` and
`location` themselves can be null, which matters because the normalizer
accesses `category.join` and `location.address` without a null check. -/
structure RawTransaction where
  name : String
  date : String
  amount : Int
  iso_currency_code : Option String
  unofficial_currency_code : Option String
  transaction_type : String
  account_id : String
  transaction_id : String
  category : Option (List String)
  location : Option RawLocation
  pending : Bool
deriving DecidableEq, Repr

/-- Normalized transaction (types/transaction.ts shape as constructed at
plaidIntegration.ts lines 165-183). `institution` and `account` are only
filled in by the reconciliation step (lines 189-193). -/
structure Transaction where
  integration : IntegrationId
  name : String
  date : ParsedDate
  amount : Int
  currency : Option String
  type : String
  accountId : String
  transactionId : String
  category : String
  address : Option String
  city : Option String
  state : Option String
  postal_code : Option String
  country : Option String
  latitude : Option Int
  longitude : Option Int
  pending : Bool
  institution : Option String := none
  account : Option String := none
deriving DecidableEq, Repr

/-- Normalized account (types/account.ts shape as constructed at
plaidIntegration.ts lines 152-163); `transactions` is attached by the
reconciliation step (lines 185-194) and empty before it. -/
structure Account where
  integration : IntegrationId
  accountId : String
  mask : Option String
  institution : String
  account : Option String
  type : String
  current : Option Int
  available : Option Int
  limit : Option Int
  currency : Option String
  transactions : List Transaction := []
deriving DecidableEq, Repr

/-- Runtime error of the normalizer: a TypeError from accessing a property
of `null`/`undefined` (e.g. `transaction.category.join` when `category`
is null). -/
inductive NormError where
  | typeError
deriving DecidableEq, Repr

/-- Separator used to join category levels (plaidIntegration.ts line 174). -/
def categorySeparator : String := " - "

/-- Account normalization, the body of `data.accounts.map` at
plaidIntegration.ts lines 152-163. Total: every property access is on a
non-null object. -/
def toAccount (a : RawAccount) : Account :=
  { integration := IntegrationId.plaid
    accountId := a.account_id
    mask := a.mask
    institution := a.name
    account := a.official_name
    type := jsOrStr a.subtype a.type
    current := a.balances.current
    available := a.balances.available
    limit := a.balances.limit
    currency := jsOr a.balances.iso_currency_code a.balances.unofficial_currency_code }

/-- Transaction normalization, the body of `data.transactions.map` at
plaidIntegration.ts lines 165-183.  Fallible: `transaction.category.join`
(line 174) and `transaction.location.address` etc. (lines 175-181) throw a
TypeError when `category` resp. `location` is null. The object literal is
evaluated top to bottom, so the `category` access throws first. -/
def toTransaction (t : RawTransaction) : Except NormError Transaction :=
  match t.category with
  | none => Except.error NormError.typeError
  | some cats =>
    match t.location with
    | none => Except.error NormError.typeError
    | some loc =>
      Except.ok
        { integration := IntegrationId.plaid
          name := t.name
          date := parseISO t.date
          amount := t.amount
          currency := jsOr t.iso_currency_code t.unofficial_currency_code
          type := t.transaction_type
          accountId := t.account_id
          transactionId := t.transaction_id
          category := String.intercalate categorySeparator cats
          address := loc.address
          city := loc.city
          state := loc.region
          postal_code := loc.postal_code
          country := loc.country
          latitude := loc.lat
          longitude := loc.lon
          pending := t.pending }

/-- Denormalization applied to each attached transaction
(plaidIntegration.ts lines 189-193): the owning account's institution and
display name are copied into the transaction. -/
def embedInto (account : Account) (t : Transaction) : Transaction :=
  { t with institution := some account.institution, account := account.account }

/-- Reconciliation of one account (the body of `accounts.map` at
plaidIntegration.ts lines 185-194): the account receives every transaction
whose `accountId` equals its own, each with institution and display name
embedded. -/
def attachOne (transactions : List Transaction) (account : Account) : Account :=
  { account with
    transactions :=
      (transactions.filter (fun t => t.accountId == account.accountId)).map (embedInto account) }

/-- Reconciliation step (plaidIntegration.ts lines 185-194). -/
def attach (accounts : List Account) (transactions : List Transaction) : List Account :=
  accounts.map (attachOne transactions)

/-- Body of the `.then` callback of `fetchAccount` (plaidIntegration.ts lines
151-201): normalize accounts, normalize transactions (which can throw), and
reconcile. A thrown TypeError propagates out of the callback. -/
def processData (data : TransactionsResponse RawAccount RawTransaction) :
    Except NormError (List Account) := do
  let accounts := data.accounts.map toAccount
  let transactions ← data.transactions.mapM toTransaction
  return attach accounts transactions

/-- Reasons for which the per-account pipeline fails: the page fetch rejected,
or the normalization threw. -/
inductive FetchError where
  | fetchRejected (e : PlaidError)
  | normThrew (e : NormError)
deriving DecidableEq, Repr

/-- `fetchAccount` (plaidIntegration.ts lines 145-206), as a function of the
settled outcome of its fetch-and-normalize pipeline.  The `.catch` at lines
202-205 converts every rejection — of the paged fetch or of the `.then`
callback — into the empty list, so `fetchAccount` itself is total (it never
rejects) with the successful value of `processData` as its only non-empty
outcome. -/
def fetchAccount (result : Except PlaidError (TransactionsResponse RawAccount RawTransaction)) :
    List Account :=
  match result with
  | Except.error _ => []
  | Except.ok data =>
    match processData data with
    | Except.error _ => []
    | Except.ok accounts => accounts

/-- Response of `client.exchangePublicToken`: a provider item id and a durable
access token. -/
structure TokenResponse where
  item_id : String
  access_token : String
deriving DecidableEq, Repr

/-- One entry of the credential store, as written by `savePublicToken`
(plaidIntegration.ts lines 45-49). -/
structure AccountConfig where
  id : String
  integration : IntegrationId
  token : String
deriving DecidableEq, Repr

/-- Modelled from the spec: the Credential Store (`config.accounts`, owned by
src/lib/config which is not part of the sources under verification) is a map
from provider item ids to account configurations; it is represented as an
association list whose lookup honours the latest write per key. -/
abbrev Store := List (String × AccountConfig)

/-- Write of one key of the credential store, modelling the JavaScript
assignment `config.accounts[tokenResponse.item_id] = ...`: the new entry
shadows (overwrites) any prior entry for the same key. -/
def storeSet (store : Store) (k : String) (v : AccountConfig) : Store :=
  (k, v) :: store.filter (fun p => p.1 != k)

/-- Lookup in the credential store. -/
def storeLookup (store : Store) (k : String) : Option AccountConfig :=
  (store.find? (fun p => p.1 == k)).map Prod.snd

/-- `savePublicToken` (plaidIntegration.ts lines 43-53). Modelled from the
spec: `updateConfig` (src/lib/config, not among the sources) applies the
callback to the store and persists the returned value; if the callback throws,
nothing is persisted.  The caller passes the token response it received from
the exchange callback, which is `undefined` when the exchange failed, and the
callback then throws a TypeError on `tokenResponse.item_id` before any write,
leaving the store unchanged. -/
def savePublicToken (store : Store) (tokenResponse : Option TokenResponse) : Except Unit Store :=
  match tokenResponse with
  | none => Except.error ()
  | some tr =>
    Except.ok (storeSet store tr.item_id
      { id := tr.item_id, integration := IntegrationId.plaid, token := tr.access_token })

/-- Body of a POST to `/get_access_token` (plaidIntegration.ts lines 63-78).
The handler checks `public_token`, then `exit`, then falls back to the error
branch; only presence (`!== undefined`) is tested. -/
structure GetAccessTokenBody where
  public_token : Option String
  exit : Option Bool
  error : Option String
deriving DecidableEq, Repr

/-- Settlement of the promise returned by `addAccount`.  Modelled from the
spec: `logInfo` / `logError` (src/lib/logging, not among the sources) log and
surface their message, so a settlement carries the logged message. -/
inductive Settlement where
  | resolved (msg : String)
  | rejected (msg : String)
deriving DecidableEq, Repr

/-- Truth of a settlement being a rejection. -/
def Settlement.isRejection : Settlement → Bool
  | Settlement.resolved _ => false
  | Settlement.rejected _ => true

def msgTokenSaved : String := "Plaid access token saved."

def msgCancelled : String := "Plaid authentication cancelled."

def msgAuthFailed : String := "Encountered error during authentication."

def msgExchangeFailed : String := "Encountered error exchanging Plaid public token."

/-- Outcome of one run of the `/get_access_token` handler: the store after the
run, the settle calls made on the outer promise in program order, and whether
the handler (or the exchange callback) terminated with an uncaught throw. -/
structure HandlerOutcome where
  store : Store
  settlements : List Settlement
  threw : Bool
deriving DecidableEq, Repr

/-- The `/get_access_token` handler (plaidIntegration.ts lines 63-78).
`exchange` models `client.exchangePublicToken`, whose callback receives
either an error (with no token response) or a token response.  Control flow
of the source, error case: `reject` runs (there is no early return), then
`savePublicToken(tokenResponse)` is reached with an undefined token response
and throws, so `resolve` is never reached.  Success case: `reject` is
skipped, the token is saved, then `resolve` runs. -/
def handleGetAccessToken (exchange : String → Except PlaidError TokenResponse)
    (store : Store) (body : GetAccessTokenBody) : HandlerOutcome :=
  match body.public_token with
  | some tok =>
    match exchange tok with
    | Except.ok tr =>
      match savePublicToken store (some tr) with
      | Except.ok newStore => ⟨newStore, [Settlement.resolved msgTokenSaved], false⟩
      | Except.error _ => ⟨store, [], true⟩
    | Except.error _ =>
      match savePublicToken store none with
      | Except.ok newStore =>
        ⟨newStore, [Settlement.rejected msgExchangeFailed, Settlement.resolved msgTokenSaved], false⟩
      | Except.error _ => ⟨store, [Settlement.rejected msgExchangeFailed], true⟩
  | none =>
    match body.exit with
    | some _ => ⟨store, [Settlement.resolved msgCancelled], false⟩
    | none => ⟨store, [Settlement.rejected msgAuthFailed], false⟩

/-- State of one `addAccount` handshake: whether the HTTP server still
listens, the settlement of the outer promise (a promise settles at most once,
the first call wins), and the credential store. -/
structure ServerState where
  listening : Bool
  settled : Option Settlement
  store : Store
deriving DecidableEq, Repr

/-- Requests the handshake server reacts to with state changes:
a POST to `/get_access_token` and a POST to `/done` (which is the only place
the source calls `server.close()`, plaidIntegration.ts lines 105-108). -/
inductive ServerEvent where
  | getAccessToken (body : GetAccessTokenBody)
  | donePost
deriving DecidableEq, Repr

/-- First-settlement-wins semantics of a JavaScript promise. -/
def settleFirst (cur : Option Settlement) (calls : List Settlement) : Option Settlement :=
  match cur with
  | some s => some s
  | none => calls.head?

/-- One step of the handshake server.  A server that is no longer listening
accepts no connections, so events have no effect on it; `/done` stops the
listener; `/get_access_token` runs the handler, which may settle the promise
and update the store but never touches the listener. -/
def step (exchange : String → Except PlaidError TokenResponse)
    (s : ServerState) (e : ServerEvent) : ServerState :=
  if s.listening then
    match e with
    | ServerEvent.getAccessToken body =>
      let out := handleGetAccessToken exchange s.store body
      { s with store := out.store, settled := settleFirst s.settled out.settlements }
    | ServerEvent.donePost => { s with listening := false }
  else s

/-- State right after `addAccount` created the server and bound the port
(plaidIntegration.ts lines 112-114): listening, promise pending. -/
def initialServerState (store : Store) : ServerState :=
  { listening := true, settled := none, store := store }

/-- Consistent provider with 1200 transactions used as a concrete instance of
the paginated fetch: the page at offset k holds min 500 (1200 - k) records. -/
def wResp (k : Nat) : TransactionsResponse Unit Nat :=
  { accounts := [], transactions := List.replicate (min 500 (1200 - k)) 0
    total_transactions := 1200 }

/-- Provider call for the 1200-transaction instance; every request succeeds. -/
def wGetTx (k : Nat) : Except PlaidError (TransactionsResponse Unit Nat) :=
  Except.ok (wResp k)

/-- Consistent provider reporting zero total transactions, with every page
empty. -/
def cexResp : TransactionsResponse Unit Unit :=
  { accounts := [], transactions := [], total_transactions := 0 }

/-- Provider call for the zero-transaction instance. -/
def cexGetTx : Nat → Except PlaidError (TransactionsResponse Unit Unit) :=
  fun _ => Except.ok cexResp

/-- Concrete raw location with every subfield present. -/
def rawLocW : RawLocation :=
  { address := some "1 Main St", city := some "Springfield", region := some "IL"
    postal_code := some "62704", country := some "US", lat := some 39, lon := some (-89) }

/-- Concrete raw location with every subfield absent. -/
def rawLocNone : RawLocation :=
  { address := none, city := none, region := none, postal_code := none, country := none
    lat := none, lon := none }

/-- Concrete raw transaction belonging to account "A". -/
def rawTxW1 : RawTransaction :=
  { name := "Coffee", date := "2020-01-02", amount := 4, iso_currency_code := some "USD"
    unofficial_currency_code := none, transaction_type := "place", account_id := "A"
    transaction_id := "t1", category := some ["Food", "Coffee"], location := some rawLocW
    pending := false }

/-- Concrete raw transaction whose accountId matches no account of the batch. -/
def rawTxW2 : RawTransaction :=
  { name := "Stray", date := "2020-01-03", amount := 7, iso_currency_code := none
    unofficial_currency_code := some "BTC", transaction_type := "digital"
    account_id := "orphan", transaction_id := "t2", category := some ["Transfer"]
    location := some rawLocNone, pending := true }

/-- Concrete raw account "A". -/
def rawAccW1 : RawAccount :=
  { account_id := "A", mask := some "1234", name := "Bank A"
    official_name := some "Bank A Checking", subtype := some "checking", type := "depository"
    balances := { current := some 100, available := some 90, limit := none
                  iso_currency_code := some "USD", unofficial_currency_code := none } }

/-- Concrete raw account "B", which no transaction of the batch references. -/
def rawAccW2 : RawAccount :=
  { account_id := "B", mask := none, name := "Bank B", official_name := none
    subtype := none, type := "credit"
    balances := { current := some 50, available := none, limit := some 1000
                  iso_currency_code := none, unofficial_currency_code := some "XCU" } }

/-- Concrete successful fetch payload: two accounts, one matched and one
orphan transaction. -/
def dataW : TransactionsResponse RawAccount RawTransaction :=
  { accounts := [rawAccW1, rawAccW2], transactions := [rawTxW1, rawTxW2]
    total_transactions := 2 }

/-- Normalized form of rawTxW1. -/
def txWA : Transaction :=
  { integration := IntegrationId.plaid, name := "Coffee", date := ⟨"2020-01-02"⟩, amount := 4
    currency := some "USD", type := "place", accountId := "A", transactionId := "t1"
    category := "Food - Coffee", address := some "1 Main St", city := some "Springfield"
    state := some "IL", postal_code := some "62704", country := some "US", latitude := some 39
    longitude := some (-89), pending := false }

/-- Normalized form of rawTxW2. -/
def txWB : Transaction :=
  { integration := IntegrationId.plaid, name := "Stray", date := ⟨"2020-01-03"⟩, amount := 7
    currency := some "BTC", type := "digital", accountId := "orphan", transactionId := "t2"
    category := "Transfer", address := none, city := none, state := none, postal_code := none
    country := none, latitude := none, longitude := none, pending := true }

/-- The normalized transaction batch of dataW. -/
def txsW : List Transaction := [txWA, txWB]

/-- Raw transaction carrying a present but empty ISO currency code next to an
unofficial code. -/
def cexTx4 : RawTransaction :=
  { name := "X", date := "2020-01-01", amount := 1, iso_currency_code := some ""
    unofficial_currency_code := some "XYZ", transaction_type := "special", account_id := "A"
    transaction_id := "c4", category := some [], location := some rawLocNone, pending := false }

/-- What the normalizer produces for cexTx4: the unofficial code wins. -/
def cexOut4 : Transaction :=
  { integration := IntegrationId.plaid, name := "X", date := ⟨"2020-01-01"⟩, amount := 1
    currency := some "XYZ", type := "special", accountId := "A", transactionId := "c4"
    category := "", address := none, city := none, state := none, postal_code := none
    country := none, latitude := none, longitude := none, pending := false }

/-- Raw transaction with an absent category and all other fields present. -/
def cexTx8 : RawTransaction :=
  { name := "Y", date := "2020-01-03", amount := 2, iso_currency_code := some "USD"
    unofficial_currency_code := none, transaction_type := "digital", account_id := "A"
    transaction_id := "c8", category := none, location := some rawLocW, pending := true }

/-- Raw transaction with a category but an absent location. -/
def txNoLocW : RawTransaction :=
  { name := "Z", date := "2020-01-04", amount := 3, iso_currency_code := none
    unofficial_currency_code := none, transaction_type := "place", account_id := "A"
    transaction_id := "c8b", category := some ["Misc"], location := none, pending := false }

/-- Raw account with every optional field absent. -/
def accNoneW : RawAccount :=
  { account_id := "C", mask := none, name := "Bank C", official_name := none, subtype := none
    type := "credit"
    balances := { current := none, available := none, limit := none, iso_currency_code := none
                  unofficial_currency_code := none } }

/-- Fetch payload whose only transaction makes the normalizer throw. -/
def dataBad : TransactionsResponse RawAccount RawTransaction :=
  { accounts := [rawAccW1], transactions := [cexTx8], total_transactions := 1 }

/-- Exchange that fails on every public token. -/
def exchFail : String → Except PlaidError TokenResponse :=
  fun _ => Except.error PlaidError.authError

/-- Exchange that succeeds with item id "itemX" and access token "accX",
as in the handshake scenario of the spec. -/
def exchW : String → Except PlaidError TokenResponse :=
  fun _ => Except.ok { item_id := "itemX", access_token := "accX" }

/-- POST body carrying an explicit exit signal. -/
def exitBodyW : GetAccessTokenBody :=
  { public_token := none, exit := some true, error := none }

/-- POST body carrying a public token. -/
def bodyTokW : GetAccessTokenBody :=
  { public_token := some "tok1", exit := none, error := none }

/-- POST body carrying a client-reported error. -/
def errBodyW : GetAccessTokenBody :=
  { public_token := none, exit := none, error := some "boom" }

/-- The credential store entry the spec handshake scenario expects. -/
def accountConfigX : AccountConfig :=
  { id := "itemX", integration := IntegrationId.plaid, token := "accX" }

lemma fetchPagedGo_zero {α τ : Type} (getTx : Nat → Except PlaidError (TransactionsResponse α τ))
    (first : TransactionsResponse α τ) (offset : Nat) (acc : List τ) (reqs : List Nat) :
    fetchPagedGo getTx first 0 offset acc reqs =
      if acc.length < first.total_transactions then none
      else some (Except.ok ({ first with transactions := acc }, reqs)) := by
  rw [fetchPagedGo]

lemma fetchPagedGo_succ {α τ : Type} (getTx : Nat → Except PlaidError (TransactionsResponse α τ))
    (first : TransactionsResponse α τ) (f offset : Nat) (acc : List τ) (reqs : List Nat) :
    fetchPagedGo getTx first (f + 1) offset acc reqs =
      if acc.length < first.total_transactions then
        match getTx (offset + 500) with
        | Except.error e => some (Except.error e)
        | Except.ok next_page =>
          fetchPagedGo getTx first f (offset + 500)
            (acc ++ next_page.transactions) (reqs ++ [offset + 500])
      else some (Except.ok ({ first with transactions := acc }, reqs)) := by
  rw [fetchPagedGo]

lemma pagesConcat_length {τ : Type} (page : Nat → List τ) (total : Nat)
    (hlen : ∀ k, (page k).length = min 500 (total - k)) :
    ∀ n, (pagesConcat page n).length = min (500 * n) total := by
  intro n
  induction n with
  | zero => simp [pagesConcat]
  | succ m ih =>
    simp only [pagesConcat, List.length_append, ih, hlen]
    omega

lemma fetchPagedGo_spec {α τ : Type}
    (getTx : Nat → Except PlaidError (TransactionsResponse α τ))
    (resp : Nat → TransactionsResponse α τ) (total : Nat)
    (hok : ∀ k, getTx k = Except.ok (resp k))
    (hlen : ∀ k, ((resp k).transactions).length = min 500 (total - k))
    (first : TransactionsResponse α τ) (hfirst : first.total_transactions = total) :
    ∀ fuel j, total ≤ 500 * (j + 1 + fuel) → j + 1 ≤ numRequests total →
      fetchPagedGo getTx first fuel (500 * j)
          (pagesConcat (fun k => (resp k).transactions) (j + 1))
          (pageOffsets (j + 1))
        = some (Except.ok
            ({ first with transactions := pagesConcat (fun k => (resp k).transactions) (numRequests total) },
             pageOffsets (numRequests total))) := by
  intro fuel
  induction fuel with
  | zero =>
    intro j hle hj
    have hacc := pagesConcat_length (fun k => (resp k).transactions) total hlen (j + 1)
    have hdone : ¬ ((pagesConcat (fun k => (resp k).transactions) (j + 1)).length
        < first.total_transactions) := by
      rw [hacc, hfirst]; omega
    have hN : j + 1 = numRequests total := by
      simp only [numRequests] at hj ⊢; omega
    rw [fetchPagedGo_zero, if_neg hdone, hN]
  | succ f ih =>
    intro j hle hj
    have hacc := pagesConcat_length (fun k => (resp k).transactions) total hlen (j + 1)
    by_cases hcond : 500 * (j + 1) < total
    · have hlt : (pagesConcat (fun k => (resp k).transactions) (j + 1)).length
          < first.total_transactions := by
        rw [hacc, hfirst]; omega
      rw [fetchPagedGo_succ, if_pos hlt, hok (500 * j + 500)]
      dsimp only
      have e1 : 500 * j + 500 = 500 * (j + 1) := by ring
      have h2 : pagesConcat (fun k => (resp k).transactions) (j + 1)
            ++ (resp (500 * j + 500)).transactions
          = pagesConcat (fun k => (resp k).transactions) (j + 1 + 1) := by
        rw [e1]; rfl
      have h3 : pageOffsets (j + 1) ++ [500 * j + 500] = pageOffsets (j + 1 + 1) := by
        rw [e1]; rfl
      rw [h2, h3, e1]
      have hj2 : j + 1 + 1 ≤ numRequests total := by
        simp only [numRequests] at hj ⊢; omega
      exact ih (j + 1) (by omega) hj2
    · have hdone : ¬ ((pagesConcat (fun k => (resp k).transactions) (j + 1)).length
          < first.total_transactions) := by
        rw [hacc, hfirst]; omega
      have hN : j + 1 = numRequests total := by
        simp only [numRequests] at hj ⊢; omega
      rw [fetchPagedGo_succ, if_neg hdone, hN]

/-- C1 (amended): for every fetch in which the provider reports a constant
total and serves consistent pages (the page at offset k holds
min 500 (total - k) records), `fetchPagedTransactions` terminates within any
sufficient fuel and resolves with exactly `total` transaction records: the
pages at offsets 0, 500, 1000, ... concatenated in arrival order and never
re-sorted, obtained by max 1 (ceil (total / 500)) requests — the initial
request is issued even when the reported total is 0, so the request count is
max 1 (ceil (total / 500)) rather than the ceil (total / 500) of the original
claim. -/
theorem C1_paged_fetch_consistent {α τ : Type}
    (getTx : Nat → Except PlaidError (TransactionsResponse α τ))
    (resp : Nat → TransactionsResponse α τ) (total fuel : Nat)
    (hok : ∀ k, getTx k = Except.ok (resp k))
    (htot : ∀ k, (resp k).total_transactions = total)
    (hlen : ∀ k, ((resp k).transactions).length = min 500 (total - k))
    (hfuel : total ≤ 500 * (1 + fuel)) :
    fetchPagedTransactions getTx fuel
      = some (Except.ok
          ({ resp 0 with
              transactions := pagesConcat (fun k => (resp k).transactions) (numRequests total) },
           pageOffsets (numRequests total)))
      ∧ (pagesConcat (fun k => (resp k).transactions) (numRequests total)).length = total := by
  constructor
  · have hspec := fetchPagedGo_spec getTx resp total hok hlen (resp 0) (htot 0) fuel 0
      (by omega) (by simp only [numRequests]; omega)
    simp only [fetchPagedTransactions, hok 0]
    simpa [pagesConcat, pageOffsets] using hspec
  · rw [pagesConcat_length (fun k => (resp k).transactions) total hlen (numRequests total)]
    simp only [numRequests]
    omega

/-- C1 witness: the consistent 1200-transaction provider yields exactly 1200
records in three requests at offsets 0, 500, 1000. -/
theorem C1_witness :
    fetchPagedTransactions wGetTx 3
      = some (Except.ok
          ({ wResp 0 with
              transactions := pagesConcat (fun k => (wResp k).transactions) (numRequests 1200) },
           pageOffsets (numRequests 1200)))
      ∧ (pagesConcat (fun k => (wResp k).transactions) (numRequests 1200)).length = 1200 :=
  C1_paged_fetch_consistent wGetTx wResp 1200 3 (fun _ => rfl) (fun _ => rfl)
    (fun k => by simp [wResp]) (by norm_num)

/-- C1 counterexample: the provider that consistently reports a total of 0
with empty pages still receives the initial request, so the fetch resolves
after 1 request while ceil (0 / 500) = 0; the claimed request count
ceil (total / 500) is wrong at total = 0. -/
theorem C1_counterexample :
    cexGetTx 0 = Except.ok cexResp ∧
    cexResp.total_transactions = 0 ∧
    cexResp.transactions.length = min 500 (0 - 0) ∧
    fetchPagedTransactions cexGetTx 0 = some (Except.ok (cexResp, [0])) ∧
    ([0] : List Nat).length ≠ (cexResp.total_transactions + 499) / 500 := by
  refine ⟨rfl, rfl, rfl, rfl, by decide⟩

/-- C2: if any step of the per-account pipeline fails — the paged fetch
rejects, or the normalization throws — then `fetchAccount` resolves with the
empty list.  `fetchAccount` is a total function into `List Account`
(no `Except` in its result type), which is the embedded form of the claim
that it never rejects. -/
theorem C2_fetchAccount_failure_isolation
    (r : Except PlaidError (TransactionsResponse RawAccount RawTransaction))
    (h : (∃ e, r = Except.error e) ∨
         ∃ data e, r = Except.ok data ∧ processData data = Except.error e) :
    fetchAccount r = [] := by
  rcases h with ⟨e, rfl⟩ | ⟨data, e, rfl, hp⟩
  · rfl
  · simp [fetchAccount, hp]

/-- C2 witness: a rejected fetch and a payload whose normalization throws
(absent category) both make `fetchAccount` resolve with the empty list. -/
theorem C2_witness :
    fetchAccount (Except.error PlaidError.transportError) = [] ∧
    fetchAccount (Except.ok dataBad) = [] :=
  ⟨C2_fetchAccount_failure_isolation _ (Or.inl ⟨PlaidError.transportError, rfl⟩),
   C2_fetchAccount_failure_isolation _ (Or.inr ⟨dataBad, NormError.typeError, rfl, rfl⟩)⟩

lemma mem_attach (A : List Account) (txs : List Transaction) (a' : Account) :
    a' ∈ attach A txs ↔ ∃ a, a ∈ A ∧ a' = attachOne txs a := by
  simp only [attach, List.mem_map]
  constructor
  · rintro ⟨a, ha, rfl⟩; exact ⟨a, ha, rfl⟩
  · rintro ⟨a, ha, rfl⟩; exact ⟨a, ha, rfl⟩

lemma mem_attachOne_transactions (txs : List Transaction) (a : Account) (t' : Transaction) :
    t' ∈ (attachOne txs a).transactions ↔
      ∃ t, t ∈ txs ∧ t.accountId = a.accountId ∧ embedInto a t = t' := by
  simp only [attachOne, List.mem_map, List.mem_filter, beq_iff_eq]
  constructor
  · rintro ⟨t, ⟨ht, he⟩, rfl⟩; exact ⟨t, ht, he, rfl⟩
  · rintro ⟨t, ht, he, rfl⟩; exact ⟨t, ⟨ht, he⟩, rfl⟩

/-- C3: on a successful `fetchAccount` run the result is the reconciliation of
the normalized accounts with the normalized transactions, in which (1) every
embedded transaction carries the accountId of its account, (2) a transaction
whose accountId matches no account of the batch appears — neither unchanged
nor in embedded form — in no account of the result (and accounts are all the
result holds), and (3) an account with no matching transaction still appears,
with the empty transaction list. -/
theorem C3_join_correctness (data : TransactionsResponse RawAccount RawTransaction)
    (txs : List Transaction)
    (h : data.transactions.mapM toTransaction = Except.ok txs) :
    fetchAccount (Except.ok data) = attach (data.accounts.map toAccount) txs ∧
    (∀ a, a ∈ attach (data.accounts.map toAccount) txs →
      ∀ t, t ∈ a.transactions → t.accountId = a.accountId) ∧
    (∀ t, t ∈ txs →
      (∀ a, a ∈ data.accounts.map toAccount → a.accountId ≠ t.accountId) →
      ∀ a, a ∈ attach (data.accounts.map toAccount) txs →
        t ∉ a.transactions ∧ embedInto a t ∉ a.transactions) ∧
    (∀ a, a ∈ data.accounts.map toAccount →
      (∀ t, t ∈ txs → t.accountId ≠ a.accountId) →
      { a with transactions := ([] : List Transaction) }
        ∈ attach (data.accounts.map toAccount) txs) := by
  refine ⟨?_, ?_, ?_, ?_⟩
  · have hp : processData data = Except.ok (attach (data.accounts.map toAccount) txs) := by
      unfold processData
      rw [h]
      rfl
    simp [fetchAccount, hp]
  · intro a ha t ht
    rw [mem_attach] at ha
    obtain ⟨b, hb, rfl⟩ := ha
    rw [mem_attachOne_transactions] at ht
    obtain ⟨s, hs, he, rfl⟩ := ht
    simpa [embedInto, attachOne] using he
  · intro t ht hnone a ha
    rw [mem_attach] at ha
    obtain ⟨b, hb, rfl⟩ := ha
    constructor
    · intro hmem
      rw [mem_attachOne_transactions] at hmem
      obtain ⟨s, hs, he, hemb⟩ := hmem
      have hacc : t.accountId = b.accountId := by
        rw [← hemb]
        simpa [embedInto] using he
      exact hnone b hb hacc.symm
    · intro hmem
      rw [mem_attachOne_transactions] at hmem
      obtain ⟨s, hs, he, hemb⟩ := hmem
      have hacc : t.accountId = b.accountId := by
        have h2 := congrArg Transaction.accountId hemb
        simp only [embedInto] at h2
        rw [← h2]
        exact he
      exact hnone b hb hacc.symm
  · intro a ha hnone
    rw [mem_attach]
    refine ⟨a, ha, ?_⟩
    have hfil : txs.filter (fun t => t.accountId == a.accountId) = [] := by
      rw [List.filter_eq_nil_iff]
      intro t ht
      simpa using hnone t ht
    simp [attachOne, hfil]

/-- C3 witness: on the concrete two-account batch the successful run returns
the reconciled accounts, and account "B" (no matching transaction) appears
with the empty transaction list. -/
theorem C3_witness :
    fetchAccount (Except.ok dataW) = attach (dataW.accounts.map toAccount) txsW ∧
    { toAccount rawAccW2 with transactions := ([] : List Transaction) }
      ∈ attach (dataW.accounts.map toAccount) txsW := by
  have h := C3_join_correctness dataW txsW (by rfl)
  exact ⟨h.1, h.2.2.2 (toAccount rawAccW2) (by simp [dataW]) (by decide)⟩

/-- C9: each account of the reconciled batch keeps every field except
`transactions` unchanged, and each transaction it embeds equals a normalized
transaction of the batch in every field except `institution` and `account`,
which are overwritten with the owning account's institution and display
name. -/
theorem C9_attachment_frame (A : List Account) (txs : List Transaction) :
    ∀ a, a ∈ A →
      attachOne txs a ∈ attach A txs ∧
      ((attachOne txs a).integration = a.integration ∧
        (attachOne txs a).accountId = a.accountId ∧
        (attachOne txs a).mask = a.mask ∧
        (attachOne txs a).institution = a.institution ∧
        (attachOne txs a).account = a.account ∧
        (attachOne txs a).type = a.type ∧
        (attachOne txs a).current = a.current ∧
        (attachOne txs a).available = a.available ∧
        (attachOne txs a).limit = a.limit ∧
        (attachOne txs a).currency = a.currency) ∧
      ∀ t', t' ∈ (attachOne txs a).transactions → ∃ t, t ∈ txs ∧
        t'.institution = some a.institution ∧ t'.account = a.account ∧
        t'.integration = t.integration ∧ t'.name = t.name ∧ t'.date = t.date ∧
        t'.amount = t.amount ∧ t'.currency = t.currency ∧ t'.type = t.type ∧
        t'.accountId = t.accountId ∧ t'.transactionId = t.transactionId ∧
        t'.category = t.category ∧ t'.address = t.address ∧ t'.city = t.city ∧
        t'.state = t.state ∧ t'.postal_code = t.postal_code ∧ t'.country = t.country ∧
        t'.latitude = t.latitude ∧ t'.longitude = t.longitude ∧ t'.pending = t.pending := by
  intro a ha
  refine ⟨List.mem_map_of_mem _ ha,
    ⟨rfl, rfl, rfl, rfl, rfl, rfl, rfl, rfl, rfl, rfl⟩, ?_⟩
  intro t' ht'
  rw [mem_attachOne_transactions] at ht'
  obtain ⟨t, ht, he, rfl⟩ := ht'
  exact ⟨t, ht, rfl, rfl, rfl, rfl, rfl, rfl, rfl, rfl, rfl, rfl, rfl, rfl, rfl,
    rfl, rfl, rfl, rfl, rfl, rfl⟩

/-- C9 witness: on the concrete batch, account "A" appears reconciled with its
currency (and every other non-transactions field) unchanged. -/
theorem C9_witness :
    attachOne txsW (toAccount rawAccW1) ∈ attach [toAccount rawAccW1] txsW ∧
    (attachOne txsW (toAccount rawAccW1)).currency = (toAccount rawAccW1).currency := by
  have h := C9_attachment_frame [toAccount rawAccW1] txsW (toAccount rawAccW1) (by simp)
  exact ⟨h.1, h.2.1.2.2.2.2.2.2.2.2.2⟩

lemma countP_or_disjoint {γ : Type} (l : List γ) (p q : γ → Bool)
    (h : ∀ x, x ∈ l → ¬(p x = true ∧ q x = true)) :
    l.countP (fun x => p x || q x) = l.countP p + l.countP q := by
  induction l with
  | nil => simp
  | cons a l ih =>
    simp only [List.countP_cons]
    rw [ih (fun x hx => h x (List.mem_cons_of_mem a hx))]
    have ha := h a (List.mem_cons_self a l)
    by_cases hp : p a = true <;> by_cases hq : q a = true
    · exact absurd ⟨hp, hq⟩ ha
    · simp only [Bool.not_eq_true] at hq
      simp [hp, hq]
      omega
    · simp only [Bool.not_eq_true] at hp
      simp [hp, hq]
      omega
    · simp only [Bool.not_eq_true] at hp hq
      simp [hp, hq]

lemma sum_countP_of_nodup (txs : List Transaction) :
    ∀ A : List Account, (A.map Account.accountId).Nodup →
      (A.map (fun a => txs.countP (fun t => t.accountId == a.accountId))).sum
        = txs.countP (fun t => A.any (fun b => t.accountId == b.accountId)) := by
  intro A
  induction A with
  | nil => simp
  | cons a A ih =>
    intro hnd
    rw [List.map_cons, List.nodup_cons] at hnd
    obtain ⟨hna, hnd'⟩ := hnd
    rw [List.map_cons, List.sum_cons, ih hnd']
    have hdisj : ∀ t, t ∈ txs →
        ¬((t.accountId == a.accountId) = true ∧
          (A.any (fun b => t.accountId == b.accountId)) = true) := by
      rintro t ht ⟨h1, h2⟩
      rw [beq_iff_eq] at h1
      rw [List.any_eq_true] at h2
      obtain ⟨b, hb, hbeq⟩ := h2
      rw [beq_iff_eq] at hbeq
      refine hna ?_
      rw [List.mem_map]
      exact ⟨b, hb, by rw [← hbeq, ← h1]⟩
    rw [← countP_or_disjoint txs _ _ hdisj]
    congr 1

/-- C10: if two accounts of the batch carry the same accountId, every matching
transaction is embedded into the reconciled form of each of them (the same
transaction appears under both accounts); when the accountIds are pairwise
distinct, the embedded transaction lists partition the matching transactions:
the lengths of the per-account lists sum to the number of transactions whose
accountId matches some account of the batch. -/
theorem C10_duplicate_account_ids (A : List Account) (txs : List Transaction) :
    (∀ a₁ a₂, a₁ ∈ A → a₂ ∈ A → a₁.accountId = a₂.accountId →
      ∀ t, t ∈ txs → t.accountId = a₁.accountId →
        attachOne txs a₁ ∈ attach A txs ∧ attachOne txs a₂ ∈ attach A txs ∧
        embedInto a₁ t ∈ (attachOne txs a₁).transactions ∧
        embedInto a₂ t ∈ (attachOne txs a₂).transactions) ∧
    ((A.map Account.accountId).Nodup →
      ((attach A txs).map (fun a => a.transactions.length)).sum
        = txs.countP (fun t => A.any (fun b => t.accountId == b.accountId))) := by
  constructor
  · intro a₁ a₂ h1 h2 heq t ht hta
    refine ⟨List.mem_map_of_mem _ h1, List.mem_map_of_mem _ h2, ?_, ?_⟩
    · rw [mem_attachOne_transactions]
      exact ⟨t, ht, hta, rfl⟩
    · rw [mem_attachOne_transactions]
      exact ⟨t, ht, by rw [hta, heq], rfl⟩
  · intro hnd
    have hcomp : ((fun a => a.transactions.length) ∘ attachOne txs)
        = fun a => txs.countP (fun t => t.accountId == a.accountId) := by
      funext a
      simp [attachOne, List.countP_eq_length_filter]
    rw [attach, List.map_map, hcomp, sum_countP_of_nodup txs A hnd]

/-- C10 witness: with the duplicated account "A" the matching transaction is
embedded under both copies; with the distinct accounts "A" and "B" the
embedded list lengths sum to the count of matching transactions. -/
theorem C10_witness :
    embedInto (toAccount rawAccW1) txWA
      ∈ (attachOne txsW (toAccount rawAccW1)).transactions ∧
    ((attach [toAccount rawAccW1, toAccount rawAccW2] txsW).map
        (fun a => a.transactions.length)).sum
      = txsW.countP (fun t =>
          [toAccount rawAccW1, toAccount rawAccW2].any (fun b => t.accountId == b.accountId)) := by
  have h1 := (C10_duplicate_account_ids [toAccount rawAccW1, toAccount rawAccW1] txsW).1
    (toAccount rawAccW1) (toAccount rawAccW1) (by simp) (by simp) rfl txWA (by decide) rfl
  have h2 := (C10_duplicate_account_ids [toAccount rawAccW1, toAccount rawAccW2] txsW).2
    (by decide)
  exact ⟨h1.2.2.1, h2⟩

lemma jsOr_spec (x y : Option String) :
    (∀ s, s ≠ "" → x = some s → jsOr x y = some s) ∧
    ((x = none ∨ x = some "") → jsOr x y = y) ∧
    (jsOr x y = x ∨ jsOr x y = y) := by
  refine ⟨?_, ?_, ?_⟩
  · rintro s hs rfl
    simp [jsOr, hs]
  · rintro (rfl | rfl) <;> simp [jsOr]
  · cases x with
    | none => right; rfl
    | some s =>
      by_cases hs : s = ""
      · right; simp [jsOr, hs]
      · left; simp [jsOr, hs]

/-- C4 (amended): the normalized currency equals the ISO currency code
whenever a NON-EMPTY ISO code is present, even if an unofficial code is also
present; it equals the unofficial code when the ISO code is absent or the
empty string (JavaScript `||` treats the empty string as falsy, so an empty
ISO code also falls back); it is always one of the two, never a
combination. -/
theorem C4_currency_preference (a : RawAccount) (t : RawTransaction) :
    ((∀ s, s ≠ "" → a.balances.iso_currency_code = some s → (toAccount a).currency = some s) ∧
      ((a.balances.iso_currency_code = none ∨ a.balances.iso_currency_code = some "") →
        (toAccount a).currency = a.balances.unofficial_currency_code) ∧
      ((toAccount a).currency = a.balances.iso_currency_code ∨
        (toAccount a).currency = a.balances.unofficial_currency_code)) ∧
    (∀ tr, toTransaction t = Except.ok tr →
      ((∀ s, s ≠ "" → t.iso_currency_code = some s → tr.currency = some s) ∧
        ((t.iso_currency_code = none ∨ t.iso_currency_code = some "") →
          tr.currency = t.unofficial_currency_code) ∧
        (tr.currency = t.iso_currency_code ∨ tr.currency = t.unofficial_currency_code))) := by
  constructor
  · exact jsOr_spec a.balances.iso_currency_code a.balances.unofficial_currency_code
  · intro tr htr
    unfold toTransaction at htr
    cases hc : t.category with
    | none => rw [hc] at htr; cases htr
    | some cats =>
      rw [hc] at htr
      cases hl : t.location with
      | none => rw [hl] at htr; cases htr
      | some loc =>
        rw [hl] at htr
        injection htr with htr
        subst htr
        exact jsOr_spec t.iso_currency_code t.unofficial_currency_code

/-- C4 witness: a non-empty ISO code wins ("USD" for account "A"); with the
ISO code absent the unofficial code is used ("XCU" for account "B"). -/
theorem C4_witness :
    (toAccount rawAccW1).currency = some "USD" ∧
    (toAccount rawAccW2).currency = some "XCU" := by
  have h1 := (C4_currency_preference rawAccW1 rawTxW1).1.1 "USD" (by decide) rfl
  have h2 := (C4_currency_preference rawAccW2 rawTxW2).1.2.1 (Or.inl rfl)
  exact ⟨h1, by rw [h2]; rfl⟩

/-- C4 counterexample: a record carrying the PRESENT ISO code `""` next to the
unofficial code "XYZ" normalizes to currency "XYZ", not to the present ISO
code — the claim that the ISO code wins whenever present fails for the empty
string, which JavaScript `||` treats as falsy. -/
theorem C4_counterexample :
    cexTx4.iso_currency_code = some "" ∧
    cexTx4.unofficial_currency_code = some "XYZ" ∧
    toTransaction cexTx4 = Except.ok cexOut4 ∧
    cexOut4.currency = some "XYZ" ∧
    cexOut4.currency ≠ cexTx4.iso_currency_code := by
  exact ⟨rfl, rfl, rfl, rfl, by decide⟩

/-- C8 (amended): account normalization is total and maps each absent optional
field (mask, official name, balances subfields, currency codes) to an absent
output; transaction normalization does the same for absent currency codes and
location subfields PROVIDED `category` and `location` themselves are present,
but throws a TypeError when `category` or `location` is absent
(`category.join` / `location.address` on null), instead of succeeding as the
original claim states; that error is caught at the fetchAccount boundary. -/
theorem C8_optional_fields (a : RawAccount) (t : RawTransaction) :
    (a.mask = none → (toAccount a).mask = none) ∧
    (a.official_name = none → (toAccount a).account = none) ∧
    (a.balances.current = none → (toAccount a).current = none) ∧
    (a.balances.available = none → (toAccount a).available = none) ∧
    (a.balances.limit = none → (toAccount a).limit = none) ∧
    (a.balances.iso_currency_code = none → a.balances.unofficial_currency_code = none →
      (toAccount a).currency = none) ∧
    (∀ cats loc, t.category = some cats → t.location = some loc →
      ∃ tr, toTransaction t = Except.ok tr ∧
        (t.iso_currency_code = none → t.unofficial_currency_code = none →
          tr.currency = none) ∧
        (loc.address = none → tr.address = none) ∧
        (loc.city = none → tr.city = none) ∧
        (loc.region = none → tr.state = none) ∧
        (loc.postal_code = none → tr.postal_code = none) ∧
        (loc.country = none → tr.country = none) ∧
        (loc.lat = none → tr.latitude = none) ∧
        (loc.lon = none → tr.longitude = none)) ∧
    ((t.category = none ∨ t.location = none) → ∃ e, toTransaction t = Except.error e) := by
  refine ⟨?_, ?_, ?_, ?_, ?_, ?_, ?_, ?_⟩
  · intro h; simp [toAccount, h]
  · intro h; simp [toAccount, h]
  · intro h; simp [toAccount, h]
  · intro h; simp [toAccount, h]
  · intro h; simp [toAccount, h]
  · intro h1 h2; simp [toAccount, jsOr, h1, h2]
  · intro cats loc hc hl
    have htr : toTransaction t = Except.ok
        { integration := IntegrationId.plaid, name := t.name, date := parseISO t.date
          amount := t.amount, currency := jsOr t.iso_currency_code t.unofficial_currency_code
          type := t.transaction_type, accountId := t.account_id
          transactionId := t.transaction_id
          category := String.intercalate categorySeparator cats
          address := loc.address, city := loc.city, state := loc.region
          postal_code := loc.postal_code, country := loc.country, latitude := loc.lat
          longitude := loc.lon, pending := t.pending } := by
      unfold toTransaction
      rw [hc, hl]
    refine ⟨_, htr, ?_, ?_, ?_, ?_, ?_, ?_, ?_, ?_⟩
    · intro h1 h2; simp [jsOr, h1, h2]
    · intro h; simpa using h
    · intro h; simpa using h
    · intro h; simpa using h
    · intro h; simpa using h
    · intro h; simpa using h
    · intro h; simpa using h
    · intro h; simpa using h
  · rintro (hc | hl)
    · exact ⟨NormError.typeError, by unfold toTransaction; rw [hc]⟩
    · cases hcat : t.category with
      | none => exact ⟨NormError.typeError, by unfold toTransaction; rw [hcat]⟩
      | some cats => exact ⟨NormError.typeError, by unfold toTransaction; rw [hcat, hl]⟩

/-- C8 witness: the all-absent account normalizes with absent mask and
currency, and the transaction with an absent location makes the normalizer
throw. -/
theorem C8_witness :
    (toAccount accNoneW).mask = none ∧
    (toAccount accNoneW).currency = none ∧
    (∃ e, toTransaction txNoLocW = Except.error e) := by
  have h := C8_optional_fields accNoneW txNoLocW
  exact ⟨h.1 rfl, h.2.2.2.2.2.1 rfl rfl, h.2.2.2.2.2.2.2 (Or.inr rfl)⟩

/-- C8 counterexample: a raw transaction whose optional `category` is absent
does not normalize successfully — `transaction.category.join` throws — which
refutes the claim that normalization still succeeds with the output field
absent. -/
theorem C8_counterexample :
    cexTx8.category = none ∧
    toTransaction cexTx8 = Except.error NormError.typeError :=
  ⟨rfl, rfl⟩

lemma find_filter {γ : Type} (l : List γ) (p q : γ → Bool) (h : ∀ x, p x = true → q x = true) :
    (l.filter q).find? p = l.find? p := by
  induction l with
  | nil => rfl
  | cons a l ih =>
    by_cases hq : q a = true
    · rw [List.filter_cons_of_pos hq]
      by_cases hp : p a = true
      · rw [List.find?_cons_of_pos _ hp, List.find?_cons_of_pos _ hp]
      · rw [List.find?_cons_of_neg _ hp, List.find?_cons_of_neg _ hp, ih]
    · rw [List.filter_cons_of_neg hq]
      have hp : ¬ p a = true := fun hpa => hq (h a hpa)
      rw [List.find?_cons_of_neg _ hp, ih]

lemma storeLookup_set_self (store : Store) (k : String) (v : AccountConfig) :
    storeLookup (storeSet store k v) k = some v := by
  unfold storeLookup storeSet
  rw [List.find?_cons_of_pos _ (by simp)]
  rfl

lemma storeLookup_set_other (store : Store) (k k2 : String) (v : AccountConfig)
    (h : k2 ≠ k) :
    storeLookup (storeSet store k v) k2 = storeLookup store k2 := by
  unfold storeLookup storeSet
  rw [List.find?_cons_of_neg _ (by simp [Ne.symm h])]
  rw [find_filter store (fun p => p.1 == k2) (fun p => p.1 != k)]
  intro x hx
  rw [beq_iff_eq] at hx
  rw [bne_iff_ne, hx]
  exact h

lemma handle_publicToken_ok (exchange : String → Except PlaidError TokenResponse)
    (store : Store) (body : GetAccessTokenBody) (tok : String) (tr : TokenResponse)
    (hb : body.public_token = some tok) (hx : exchange tok = Except.ok tr) :
    handleGetAccessToken exchange store body =
      ⟨storeSet store tr.item_id
        { id := tr.item_id, integration := IntegrationId.plaid, token := tr.access_token },
       [Settlement.resolved msgTokenSaved], false⟩ := by
  unfold handleGetAccessToken
  rw [hb]
  dsimp only
  rw [hx]
  rfl

lemma handle_publicToken_err (exchange : String → Except PlaidError TokenResponse)
    (store : Store) (body : GetAccessTokenBody) (tok : String) (e : PlaidError)
    (hb : body.public_token = some tok) (hx : exchange tok = Except.error e) :
    handleGetAccessToken exchange store body =
      ⟨store, [Settlement.rejected msgExchangeFailed], true⟩ := by
  unfold handleGetAccessToken
  rw [hb]
  dsimp only
  rw [hx]
  rfl

lemma handle_exit (exchange : String → Except PlaidError TokenResponse)
    (store : Store) (body : GetAccessTokenBody) (b : Bool)
    (hb : body.public_token = none) (he : body.exit = some b) :
    handleGetAccessToken exchange store body =
      ⟨store, [Settlement.resolved msgCancelled], false⟩ := by
  unfold handleGetAccessToken
  rw [hb]
  dsimp only
  rw [he]

lemma handle_err_body (exchange : String → Except PlaidError TokenResponse)
    (store : Store) (body : GetAccessTokenBody)
    (hb : body.public_token = none) (he : body.exit = none) :
    handleGetAccessToken exchange store body =
      ⟨store, [Settlement.rejected msgAuthFailed], false⟩ := by
  unfold handleGetAccessToken
  rw [hb]
  dsimp only
  rw [he]

/-- C5 (amended): during a handshake, a client-reported error and an
exchange-time failure reject the outer promise of `addAccount` with the
logged message; an explicit exit signal, however, RESOLVES the promise (with
the cancellation log) rather than rejecting it, contrary to the original
claim; a successful exchange also resolves it. -/
theorem C5_handshake_settlement (exchange : String → Except PlaidError TokenResponse)
    (store : Store) (body : GetAccessTokenBody) :
    (∀ b, body.public_token = none → body.exit = some b →
      (step exchange (initialServerState store) (ServerEvent.getAccessToken body)).settled
        = some (Settlement.resolved msgCancelled)) ∧
    (body.public_token = none → body.exit = none →
      (step exchange (initialServerState store) (ServerEvent.getAccessToken body)).settled
        = some (Settlement.rejected msgAuthFailed)) ∧
    (∀ tok e, body.public_token = some tok → exchange tok = Except.error e →
      (step exchange (initialServerState store) (ServerEvent.getAccessToken body)).settled
        = some (Settlement.rejected msgExchangeFailed)) ∧
    (∀ tok tr, body.public_token = some tok → exchange tok = Except.ok tr →
      (step exchange (initialServerState store) (ServerEvent.getAccessToken body)).settled
        = some (Settlement.resolved msgTokenSaved)) := by
  refine ⟨?_, ?_, ?_, ?_⟩
  · intro b hb he
    show settleFirst none (handleGetAccessToken exchange store body).settlements = _
    rw [handle_exit exchange store body b hb he]
    rfl
  · intro hb he
    show settleFirst none (handleGetAccessToken exchange store body).settlements = _
    rw [handle_err_body exchange store body hb he]
    rfl
  · intro tok e hb hx
    show settleFirst none (handleGetAccessToken exchange store body).settlements = _
    rw [handle_publicToken_err exchange store body tok e hb hx]
    rfl
  · intro tok tr hb hx
    show settleFirst none (handleGetAccessToken exchange store body).settlements = _
    rw [handle_publicToken_ok exchange store body tok tr hb hx]
    rfl

/-- C5 witness: a client-reported error and a failing exchange both reject the
handshake promise with the respective logged message. -/
theorem C5_witness :
    (step exchFail (initialServerState []) (ServerEvent.getAccessToken errBodyW)).settled
      = some (Settlement.rejected msgAuthFailed) ∧
    (step exchFail (initialServerState []) (ServerEvent.getAccessToken bodyTokW)).settled
      = some (Settlement.rejected msgExchangeFailed) := by
  have h1 := (C5_handshake_settlement exchFail [] errBodyW).2.1 rfl rfl
  have h2 := (C5_handshake_settlement exchFail [] bodyTokW).2.2.1 "tok1"
    PlaidError.authError rfl rfl
  exact ⟨h1, h2⟩

/-- C5 counterexample: on the explicit exit signal the handshake promise is
RESOLVED with the cancellation message — it is not a rejection — refuting the
claim that a UserCancelled exit rejects the promise returned by
`addAccount`. -/
theorem C5_counterexample :
    (step exchFail (initialServerState []) (ServerEvent.getAccessToken exitBodyW)).settled
      = some (Settlement.resolved msgCancelled) ∧
    Option.map Settlement.isRejection
        (step exchFail (initialServerState []) (ServerEvent.getAccessToken exitBodyW)).settled
      = some false :=
  ⟨rfl, rfl⟩

/-- C6: a handshake modifies the credential store iff the public-token
exchange succeeds: on success the store maps the provider item id to the
record of item id, plaid integration id, and access token (overwriting any
prior entry for that key, all other keys unchanged); on an exit signal, a
client-reported error, or an exchange failure (where `savePublicToken`
throws on the undefined token response before writing) the store is
unchanged. -/
theorem C6_store_update_iff_exchange_success
    (exchange : String → Except PlaidError TokenResponse) (store : Store)
    (body : GetAccessTokenBody) :
    (∀ tok tr, body.public_token = some tok → exchange tok = Except.ok tr →
      (step exchange (initialServerState store) (ServerEvent.getAccessToken body)).store
          = storeSet store tr.item_id
              { id := tr.item_id, integration := IntegrationId.plaid, token := tr.access_token } ∧
      storeLookup
          (step exchange (initialServerState store) (ServerEvent.getAccessToken body)).store
          tr.item_id
        = some { id := tr.item_id, integration := IntegrationId.plaid, token := tr.access_token } ∧
      ∀ k, k ≠ tr.item_id →
        storeLookup
            (step exchange (initialServerState store) (ServerEvent.getAccessToken body)).store k
          = storeLookup store k) ∧
    (∀ tok e, body.public_token = some tok → exchange tok = Except.error e →
      (step exchange (initialServerState store) (ServerEvent.getAccessToken body)).store
        = store) ∧
    (body.public_token = none →
      (step exchange (initialServerState store) (ServerEvent.getAccessToken body)).store
        = store) := by
  refine ⟨?_, ?_, ?_⟩
  · intro tok tr hb hx
    have hst : (step exchange (initialServerState store) (ServerEvent.getAccessToken body)).store
        = storeSet store tr.item_id
            { id := tr.item_id, integration := IntegrationId.plaid, token := tr.access_token } := by
      show (handleGetAccessToken exchange store body).store = _
      rw [handle_publicToken_ok exchange store body tok tr hb hx]
    refine ⟨hst, ?_, ?_⟩
    · rw [hst]
      exact storeLookup_set_self store tr.item_id _
    · intro k hk
      rw [hst]
      exact storeLookup_set_other store tr.item_id k _ hk
  · intro tok e hb hx
    show (handleGetAccessToken exchange store body).store = store
    rw [handle_publicToken_err exchange store body tok e hb hx]
  · intro hb
    show (handleGetAccessToken exchange store body).store = store
    cases he : body.exit with
    | some b => rw [handle_exit exchange store body b hb he]
    | none => rw [handle_err_body exchange store body hb he]

/-- C6 witness: the spec handshake scenario — posting public token "tok1"
with an exchange resolving to item id "itemX" and access token "accX" leaves
the store mapping "itemX" to that credential, and a subsequent exit post on a
fresh handshake over that store does not alter it. -/
theorem C6_witness :
    storeLookup
        (step exchW (initialServerState []) (ServerEvent.getAccessToken bodyTokW)).store
        "itemX"
      = some accountConfigX ∧
    (step exchW (initialServerState (storeSet [] "itemX" accountConfigX))
        (ServerEvent.getAccessToken exitBodyW)).store
      = storeSet [] "itemX" accountConfigX := by
  have h1 := (C6_store_update_iff_exchange_success exchW [] bodyTokW).1 "tok1"
    { item_id := "itemX", access_token := "accX" } rfl rfl
  have h2 := (C6_store_update_iff_exchange_success exchW
    (storeSet [] "itemX" accountConfigX) exitBodyW).2.2 rfl
  exact ⟨h1.2.1, h2⟩

/-- C7 (amended): the handshake server stops listening exactly when it
processes an explicit done post while listening; the success, cancel, and
error outcomes of `/get_access_token` leave the listener open (contrary to
the original claim that every exit path closes it), and once the listener is
closed the server accepts no further request, so it stops listening at most
once — exactly once in a handshake whose client posts done. -/
theorem C7_listener_closes_only_on_done (exchange : String → Except PlaidError TokenResponse)
    (s : ServerState) :
    (∀ body, (step exchange s (ServerEvent.getAccessToken body)).listening = s.listening) ∧
    (s.listening = true → (step exchange s ServerEvent.donePost).listening = false) ∧
    (s.listening = false → ∀ e, step exchange s e = s) := by
  refine ⟨?_, ?_, ?_⟩
  · intro body
    by_cases h : s.listening = true
    · simp [step, h]
    · simp [step, h]
  · intro h
    simp [step, h]
  · intro h e
    simp [step, h]

/-- C7 witness: a done post while listening closes the listener, and a closed
server is inert. -/
theorem C7_witness :
    (step exchFail (initialServerState []) ServerEvent.donePost).listening = false ∧
    step exchFail { listening := false, settled := none, store := [] } ServerEvent.donePost
      = { listening := false, settled := none, store := [] } := by
  have h1 := (C7_listener_closes_only_on_done exchFail (initialServerState [])).2.1 rfl
  have h2 := (C7_listener_closes_only_on_done exchFail
    { listening := false, settled := none, store := [] }).2.2 rfl ServerEvent.donePost
  exact ⟨h1, h2⟩

/-- C7 counterexample: a handshake that reaches the successful-exchange exit
path (the promise settles resolved) leaves the server still listening — the
socket is not closed on this exit path, refuting the claim that the server
stops listening on every exit path. -/
theorem C7_counterexample :
    (step exchW (initialServerState []) (ServerEvent.getAccessToken bodyTokW)).settled
      = some (Settlement.resolved msgTokenSaved) ∧
    (step exchW (initialServerState []) (ServerEvent.getAccessToken bodyTokW)).listening
      = true :=
  ⟨rfl, rfl⟩

end Mintable
